import Mathlib

/-!
Verification development for the flash_whisper repository.

Embedded code:
* `ORTWhisper._retrieve_init_token` from src/flash_whisper/onnx/whisper.py
  (the prompt builder), modelled as `retrieve_init_token` below, a pure
  function from a `GenerationConfig` and a batch size to an
  `Except Err (List (List Int))` result paired with the post-call config
  (the Python method mutates `generation_config` in place; the pair's second
  component records the config as it stands after the call, including after
  a call that raised).
* `WhisperTRTLLM.process_batch` from src/flash_whisper/tllm/whisper.py
  (the batch orchestrator), modelled as `process_batch` below with the
  inference engine, audio features and feature extractor kept abstract.

Python exceptions are represented by the `Err` type; Python `None` inside
token lists by `Option Int`; a missing attribute (`hasattr` probing) by
`Option` fields on the config.
-/

/-- The `language` argument as stored on the config: a single string or a
list whose elements may be Python `None`. -/
inductive LangSpec where
  | single (s : String)
  | many (ls : List (Option String))
deriving DecidableEq, Repr

/-- The fields of `GenerationConfig` that `_retrieve_init_token` reads or
writes.  `Option` on `lang_to_id`, `task_to_id` and `no_timestamps_token_id`
models attribute absence (the code probes them with `hasattr` / raw access);
forced-directive token ids are `Option Int` because the source type allows
`null` token ids. -/
structure GenerationConfig where
  decoder_start_token_id : Int
  lang_to_id : Option (List (String × Int))
  task_to_id : Option (List (String × Int))
  forced_decoder_ids : Option (List (Nat × Option Int))
  no_timestamps_token_id : Option Int
  return_timestamps : Bool
  language : Option LangSpec
deriving DecidableEq, Repr

/-- Python exceptions raised by the embedded code.  `malformedForcedIds`,
`invalidArgument`, `unsupportedLanguage` and `inconsistentLength` are the
spec's taxonomy names for the corresponding `ValueError` / `TypeError`
sites; `attributeError`, `nameError` and `indexError` are the plain Python
errors the code can also raise. -/
inductive Err where
  | malformedForcedIds
  | indexError
  | invalidArgument
  | unsupportedLanguage (valid : List String)
  | languageNotInModel (token : String)
  | attributeError
  | nameError
  | inconsistentLength
deriving DecidableEq, Repr

/-- Modelled from the spec: `TO_LANGUAGE_CODE`, the tokenizer module's
human-readable name table mapping language name to ISO code
(src/flash_whisper/onnx/../tokenizer/tokenizer_whisper.py is not under
src/).  Per section 4.1 step 4 of the spec it maps names to codes; it is
restricted here to the entries the spec exercises (english and french). -/
def TO_LANGUAGE_CODE : List (String × String) :=
  [("english", "en"), ("french", "fr")]

/-- Python `str.lower()`, modelled character-wise (the language identifiers
in play are ASCII, where `Char.toLower` agrees with Python). -/
def pyLower (s : String) : String := String.mk (s.data.map Char.toLower)

/-- Python `dict` key lookup over an association list. -/
def lookupStr {α : Type} : List (String × α) → String → Option α
  | [], _ => none
  | (k, v) :: rest, key => if k = key then some v else lookupStr rest key

/-- The inner `language_to_id` closure of `_retrieve_init_token`
(lines 86-106): lower-case the input, look it up against the config's
language-token keys, then the name table's keys, then the name table's
values; on failure raise with the code list (two-character input) or the
name list.  A resolved token absent from `lang_to_id` raises separately. -/
def language_to_id (cfg : GenerationConfig) (language : String) : Except Err Int :=
  let lang := pyLower language
  match cfg.lang_to_id with
  | none => .error .attributeError
  | some table =>
    match
      (if (lookupStr table lang).isSome then Except.ok lang
       else
         match lookupStr TO_LANGUAGE_CODE lang with
         | some code => Except.ok ("<|" ++ code ++ "|>")
         | none =>
           if TO_LANGUAGE_CODE.any (fun p => p.2 = lang) then
             Except.ok ("<|" ++ lang ++ "|>")
           else
             Except.error (Err.unsupportedLanguage
               (if lang.length = 2 then TO_LANGUAGE_CODE.map (fun p => p.2)
                else TO_LANGUAGE_CODE.map (fun p => p.1)))) with
    | .error e => .error e
    | .ok tok =>
      match lookupStr table tok with
      | some tid => .ok tid
      | none => .error (.languageNotInModel tok)

/-- The `while` loop of lines 118-122: consume directive entries whose
positions are exactly `i, i+1, ...`, returning the consumed token ids and
the unconsumed remainder. -/
def consumeForced : List (Nat × Option Int) → Nat → List (Option Int) × List (Nat × Option Int)
  | [], _ => ([], [])
  | (p, t) :: rest, i =>
    if p = i then
      let r := consumeForced rest (i + 1)
      (t :: r.1, r.2)
    else ([], (p, t) :: rest)

/-- Lines 116-127: start from `[decoder_start_token_id]`; if the (effective)
forced directive is present and its first position is 1, consume the
contiguous run and raise `malformedForcedIds` if entries remain.  An empty
directive list hits `forced_decoder_ids[0][0]` and raises `IndexError`;
a directive whose first position is not 1 is silently skipped. -/
def seedInitTokens (start : Int) (forced : Option (List (Nat × Option Int))) :
    Except Err (List (Option Int)) :=
  match forced with
  | none => .ok [some start]
  | some [] => .error .indexError
  | some ((p, t) :: rest) =>
    if p = 1 then
      let r := consumeForced ((p, t) :: rest) 1
      if r.2 = [] then .ok (some start :: r.1) else .error .malformedForcedIds
    else .ok [some start]

/-- Line 131: `len(init_tokens) <= 1 or (len(init_tokens) > 1 and
init_tokens[1] is None)`. -/
def langUndefinedOf (init0 : List (Option Int)) : Bool :=
  decide (init0.length ≤ 1) ||
    (match init0 with
     | _ :: none :: _ => true
     | _ => false)

/-- Lines 132-146: turn the `language` field into a per-sample list.  A list
argument is validated (no `None` entries, length equal to the batch size,
both raising the spec's `InvalidArgument` otherwise); `None` becomes
`batch_size` copies of `None`; a scalar becomes a one-element list. -/
def resolveLanguages (language : Option LangSpec) (batch : Nat) :
    Except Err (List (Option String)) :=
  match language with
  | some (.many ls) =>
    if ls.any (fun l => l.isNone) then .error .invalidArgument
    else if ls.length ≠ batch then .error .invalidArgument
    else .ok ls
  | none => .ok (List.replicate batch none)
  | some (.single s) => .ok [some s]

/-- Error-propagating map, in left-to-right order, as a Python list
comprehension or `for` loop evaluates it. -/
def mapME {α β : Type} (f : α → Except Err β) : List α → Except Err (List β)
  | [] => .ok []
  | x :: xs =>
    match f x with
    | .error e => .error e
    | .ok y =>
      match mapME f xs with
      | .error e => .error e
      | .ok ys => .ok (y :: ys)

/-- Lines 149-152: bind `lang_ids`.  With a non-`None` language, map
`language_to_id` over the per-sample list; with `None` language and an
undefined language slot, default every sample to english; otherwise
`lang_ids` is left unbound (`none` here), which makes the later loop raise
`NameError`. -/
def resolveLangIds (cfg : GenerationConfig) (languages : List (Option String))
    (batch : Nat) (langUndefined : Bool) : Except Err (Option (List Int)) :=
  if cfg.language.isSome then
    match mapME (fun l => language_to_id cfg (l.getD "")) languages with
    | .error e => .error e
    | .ok ids => .ok (some ids)
  else if langUndefined then
    match language_to_id cfg "en" with
    | .error e => .error e
    | .ok i => .ok (some (List.replicate batch i))
  else .ok none

/-- Lines 155-158 for one row: overwrite the second element when it exists,
else append. -/
def insertOne (row : List (Option Int)) (lid : Int) : List (Option Int) :=
  match row with
  | [] => [some lid]
  | [x] => [x, some lid]
  | x :: _ :: rest => x :: some lid :: rest

/-- Lines 154-158: insert the language id into every row.  When `lang_ids`
was never bound and the loop body runs at least once, Python raises
`NameError`. -/
def insertLangIds (rows : List (List (Option Int))) (langIds : Option (List Int)) :
    Except Err (List (List (Option Int))) :=
  match langIds with
  | some ids => .ok ((rows.zip ids).map (fun p => insertOne p.1 p.2))
  | none => if rows = [] then .ok [] else .error .nameError

/-- Lines 167-179 for one row: the timestamp policy.  With
`return_timestamps` false, append the no-timestamps token when it is
defined and not already last.  With `return_timestamps` true the code reads
`no_timestamps_token_id` without a `hasattr` guard (raising
`AttributeError` when absent) and drops the last element when it equals
that token. -/
def tsAdjust (cfg : GenerationConfig) (row : List (Option Int)) :
    Except Err (List (Option Int)) :=
  if cfg.return_timestamps = false then
    match cfg.no_timestamps_token_id with
    | some v => if row.getLast? ≠ some (some v) then .ok (row ++ [some v]) else .ok row
    | none => .ok row
  else
    match cfg.no_timestamps_token_id with
    | none => .error .attributeError
    | some v => if row.getLast? = some (some v) then .ok row.dropLast else .ok row

/-- Lines 161-181 for one row: the task-token branch, the timestamp branch,
then the `None` filter.  The task branch (line 164) reads the misspelled
attribute `self.eneration_config`, so whenever it is reached (language
non-`None` and `task_to_id` present) Python raises `AttributeError`. -/
def taskTsRow (cfg : GenerationConfig) (row : List (Option Int)) : Except Err (List Int) :=
  if cfg.language.isSome && cfg.task_to_id.isSome then .error .attributeError
  else
    match tsAdjust cfg row with
    | .error e => .error e
    | .ok r => .ok (r.filterMap id)

/-- Line 183: `np.tile(np.array(init_tokens, dtype=np.int64), (batch_size, 1))`.
`np.array` over ragged rows raises (the spec's `InconsistentPromptLength`);
otherwise tiling stacks `batch_size` copies of the whole row block. -/
def tileRows (rows : List (List Int)) (batch : Nat) : Except Err (List (List Int)) :=
  match rows with
  | [] => .ok []
  | r0 :: rest =>
    if (r0 :: rest).all (fun r => r.length = r0.length) then
      .ok (List.flatten (List.replicate batch (r0 :: rest)))
    else .error .inconsistentLength

/-- Lines 131-183: the body of `_retrieve_init_token` after the forced
directive has been consumed and the config's `forced_decoder_ids` field
cleared.  `cfg` here is the post-clear config (its `language` field is the
one read at line 108). -/
def retrieveCore (cfg : GenerationConfig) (init0 : List (Option Int)) (batch : Nat) :
    Except Err (List (List Int)) :=
  match resolveLanguages cfg.language batch with
  | .error e => .error e
  | .ok languages =>
    match resolveLangIds cfg languages batch (langUndefinedOf init0) with
    | .error e => .error e
    | .ok langIds =>
      match insertLangIds (languages.map (fun _ => init0)) langIds with
      | .error e => .error e
      | .ok rows2 =>
        match mapME (taskTsRow cfg) rows2 with
        | .error e => .error e
        | .ok rows3 => tileRows rows3 batch

/-- `ORTWhisper._retrieve_init_token` (lines 84-183).  Returns the Python
return value (or the exception) paired with the config as it stands after
the call: the method clears `forced_decoder_ids` at line 129, which is
reached unless the forced-directive step itself raised, in which case the
config keeps its prior value. -/
def retrieve_init_token (cfg : GenerationConfig) (batch : Nat) :
    Except Err (List (List Int)) × GenerationConfig :=
  match seedInitTokens cfg.decoder_start_token_id
      (if cfg.forced_decoder_ids.isSome && cfg.language.isSome then none
       else cfg.forced_decoder_ids) with
  | .error e => (.error e, cfg)
  | .ok init0 =>
    (retrieveCore { cfg with forced_decoder_ids := none } init0 batch,
     { cfg with forced_decoder_ids := none })

/-! ## WhisperTRTLLM.process_batch (src/flash_whisper/tllm/whisper.py) -/

/-- A torch tensor as far as `process_batch` manipulates one: a rank-1
integer vector, or a tensor wrapped in a leading size-1 dimension.  The
features fed to the engine stay abstract; only the decoder-input tensors
need this structure. -/
inductive Tens where
  | vec (xs : List Int)
  | wrap (t : Tens)
deriving DecidableEq, Repr

/-- `squeeze(0)`: drop a leading size-1 dimension.  On a rank-1 vector the
leading dimension has the vector's length, so nothing is dropped (the
prompts in play have length at least 2). -/
def squeeze0 : Tens → Tens
  | .wrap t => t
  | .vec xs => .vec xs

/-- Errors `process_batch` can hit in this model: `pad_sequence` over
tensors of unequal trailing dimensions, or indexing an empty engine
output. -/
inductive TllmErr where
  | padRankMismatch
  | emptyOutputIds
deriving DecidableEq, Repr

/-- The per-wave loop of lines 79-95, restricted to the decoder-input side.
Each iteration executes `prompt_ids = torch.tensor(prompt_ids).unsqueeze(0)`
(`torch.tensor` is the identity on an already-tensor value) and appends
`prompt_ids.squeeze(0)`; the reassignment makes the appended value gain one
wrapping dimension per iteration. -/
def decoderLoop : Tens → Nat → List Tens
  | _, 0 => []
  | cur, n + 1 =>
    let t := Tens.wrap cur
    squeeze0 t :: decoderLoop t n

/-- The decoder-input list built by `process_batch` for `n` waves from the
encoded prompt. -/
def decoder_input_ids (prompt : List Int) (n : Nat) : List Tens :=
  decoderLoop (Tens.vec prompt) n

/-- Check that every collected decoder input is rank 1, as
`torch.nn.utils.rnn.pad_sequence` requires equal trailing dimensions. -/
def allVecs : List Tens → Option (List (List Int))
  | [] => some []
  | .vec xs :: rest => (allVecs rest).map (fun l => xs :: l)
  | .wrap _ :: _ => none

/-- Longest row length. -/
def maxLen (rows : List (List Int)) : Nat :=
  rows.foldl (fun a r => max a r.length) 0

/-- Line 98: `pad_sequence(decoder_input_ids, batch_first=True,
padding_value=eot_id)`; fails when the sequences do not share trailing
dimensions. -/
def pad_sequence (padId : Int) (ts : List Tens) : Except TllmErr (List (List Int)) :=
  match allVecs ts with
  | none => .error .padRankMismatch
  | some rows => .ok (rows.map (fun r => r ++ List.replicate (maxLen rows - r.length) padId))

/-- `self.eot_id = 50257` (line 46). -/
def eot_id : Int := 50257

/-- `WhisperTRTLLM.process_batch` (lines 73-121), with the engine abstract:
`engine` receives the padded decoder rows and the halved mel lengths
(`mel_input_lengths // 2`) and returns `output_ids` as a per-sample list of
per-beam token sequences.  The method returns `outputs['output_ids'][0]`
— the first sample's beam list, not the whole batch. -/
def process_batch (engine : List (List Int) → List Nat → List (List (List Int)))
    (melFrameLens : List Nat) (prompt : List Int) :
    Except TllmErr (List (List Int)) :=
  let dec := decoder_input_ids prompt melFrameLens.length
  match pad_sequence eot_id dec with
  | .error e => .error e
  | .ok rows =>
    match engine rows (melFrameLens.map (fun l => l / 2)) with
    | [] => .error .emptyOutputIds
    | h :: _ => .ok h

deriving instance DecidableEq for Except

/-! ## Concrete configurations exercised by the claims -/

/-- Build a `GenerationConfig` from its fields, in declaration order. -/
def mkCfg (start : Int) (lang : Option (List (String × Int)))
    (task : Option (List (String × Int))) (forced : Option (List (Nat × Option Int)))
    (nots : Option Int) (ts : Bool) (language : Option LangSpec) : GenerationConfig :=
  ⟨start, lang, task, forced, nots, ts, language⟩

/-- A language table holding only english, in the `<|code|>` key form the
config uses. -/
def enTable : List (String × Int) := [("<|en|>", 50259)]

/-- The claim C6 table: english and french only, `<|code|>` key form. -/
def enfrTable : List (String × Int) := [("<|en|>", 50259), ("<|fr|>", 50265)]

/-- C2 scenario: language `None`, no forced directive, no timestamp token. -/
def cfgC2 : GenerationConfig := mkCfg 50258 (some enTable) none none none false none

/-- C3 scenario: explicit language with a task table present. -/
def cfgC3 : GenerationConfig :=
  mkCfg 50258 (some enTable) (some [("transcribe", 50360)]) none (some 50363) false
    (some (.single "en"))

/-- C4 scenario: forced directive whose first position is 2. -/
def cfgC4 : GenerationConfig :=
  mkCfg 50258 (some enTable) none (some [(2, some 50360)]) none false none

/-- C4 witness scenario: forced directive starting at 1 with a gap. -/
def cfgC4w : GenerationConfig :=
  mkCfg 50258 (some enTable) none (some [(1, some 7), (3, some 8)]) none false none

/-- C5 scenario: contiguous forced directive `[(1, 50259)]`, language `None`. -/
def cfgC5 : GenerationConfig :=
  mkCfg 50258 (some enTable) none (some [(1, some 50259)]) none false none

/-- C6 scenario, `language="french"`. -/
def cfgC6fr : GenerationConfig :=
  mkCfg 50258 (some enfrTable) none none none false (some (.single "french"))

/-- C6 scenario, `language="xx"`. -/
def cfgC6xx : GenerationConfig :=
  mkCfg 50258 (some enfrTable) none none none false (some (.single "xx"))

/-- C7 scenario: a forced directive on the config together with a language
list of the wrong length (batch size 2, list length 1). -/
def cfgC7 : GenerationConfig :=
  mkCfg 50258 (some enTable) none (some [(1, some 50360)]) none false
    (some (.many [some "en"]))

/-- C7 witness scenario: a language list containing `None`. -/
def cfgC7w : GenerationConfig :=
  mkCfg 50258 (some enTable) none none none false (some (.many [some "en", none]))

/-- C8 scenario: forced directive `[(1, 50360), (3, 50361)]` (gap after 1). -/
def cfgC8 : GenerationConfig :=
  mkCfg 50258 (some enTable) none (some [(1, some 50360), (3, some 50361)]) none false none

/-- C8 witness scenario: a forced directive discarded by the language
conflict; the call succeeds and the field is cleared. -/
def cfgC8w : GenerationConfig :=
  mkCfg 50258 (some enTable) none (some [(1, some 50360)]) none false (some (.single "en"))

/-- C9 counterexample scenario: the decoder start token coincides with the
no-timestamps token (50363), the single language token also maps to it, and
`return_timestamps` is true. -/
def cfgC9 : GenerationConfig :=
  mkCfg 50363 (some [("<|en|>", 50363)]) none none (some 50363) true (some (.single "en"))

/-- C9 witness scenario: `return_timestamps` false with a no-timestamps
token defined. -/
def cfgC9w : GenerationConfig :=
  mkCfg 50258 (some enTable) none none (some 50363) false none

/-! ## Claim theorems: direct evaluations and counterexamples -/

/-- Claim C1 (code evaluation at the failing input): with two waveforms and
an engine returning one beam per sample, `process_batch` does not return two
sequences in input order; the decoder-input list mixes tensor ranks (the
in-loop reassignment of the prompt), so `pad_sequence` fails. -/
theorem c1_code_eval :
    process_batch (fun _ _ => [[[10]], [[20]]]) [100, 200] [1, 2] =
      .error .padRankMismatch := rfl

/-- Claim C2 (code evaluation at the failing input): with language `None`,
no forced directive and batch size 2, the builder returns four prompts, not
two (`np.tile` applied to an already two-row array), each `[50258, 50259]`
ending with the default-language token 50259. -/
theorem c2_code_eval :
    (retrieve_init_token cfgC2 2).1 =
      .ok [[50258, 50259], [50258, 50259], [50258, 50259], [50258, 50259]] := rfl

/-- Claim C3 (code evaluation at the failing input): with an explicit
language and a task table present, the build raises `AttributeError` (the
misspelled `self.eneration_config` at line 164) instead of appending the
transcribe token. -/
theorem c3_code_eval :
    (retrieve_init_token cfgC3 1).1 = .error .attributeError := rfl

/-- Claim C4 counterexample: the directive `[(2, 50360)]` (first position
not 1) with language `None` does not fail with `MalformedForcedIds`; the
build succeeds, silently ignoring the directive. -/
theorem c4_counterexample :
    cfgC4.forced_decoder_ids = some [(2, some 50360)] ∧
    (retrieve_init_token cfgC4 1).1 = .ok [[50258, 50259]] := ⟨rfl, rfl⟩

/-- Claim C5 (code evaluation at the failing input): with the contiguous
directive `[(1, 50259)]` and language `None`, the build raises `NameError`
(`lang_ids` is never assigned: language is `None` and the language slot is
defined, so neither branch of lines 149-152 runs, yet line 156 reads it)
instead of returning a prompt beginning `[50258, 50259]`. -/
theorem c5_code_eval :
    (retrieve_init_token cfgC5 1).1 = .error .nameError := rfl

/-- Claim C6: with the en/fr language table, `build(1, "french")` resolves
through the name table to fr's id 50265, and `build(1, "xx")` fails with
`UnsupportedLanguage` enumerating the code set `[en, fr]`. -/
theorem c6_language_table :
    (retrieve_init_token cfgC6fr 1).1 = .ok [[50258, 50265]] ∧
    (retrieve_init_token cfgC6xx 1).1 =
      .error (.unsupportedLanguage ["en", "fr"]) := ⟨rfl, rfl⟩

/-- Claim C7 counterexample: a length-mismatched language list fails with
`InvalidArgument`, but the config's non-null `forced_decoder_ids` has been
cleared by the failed call (line 129 runs before the list validation), so
the field does not hold its prior value. -/
theorem c7_counterexample :
    cfgC7.forced_decoder_ids = some [(1, some 50360)] ∧
    (retrieve_init_token cfgC7 2).1 = .error .invalidArgument ∧
    (retrieve_init_token cfgC7 2).2.forced_decoder_ids = none := ⟨rfl, rfl, rfl⟩

/-- Claim C8 counterexample: when the forced-directive step fails with
`MalformedForcedIds` (directive `[(1, 50360), (3, 50361)]`), the raise at
line 125 precedes the clearing at line 129, so `forced_decoder_ids` is NOT
null after the call — it keeps its prior value. -/
theorem c8_counterexample :
    (retrieve_init_token cfgC8 1).1 = .error .malformedForcedIds ∧
    (retrieve_init_token cfgC8 1).2.forced_decoder_ids =
      some [(1, some 50360), (3, some 50361)] := ⟨rfl, rfl⟩

/-- Claim C9 counterexample: with `return_timestamps = true` and a config
whose decoder start token equals the no-timestamps token 50363, the
returned prompt `[50363]` still ends with the no-timestamps token id (the
removal strips only one trailing occurrence). -/
theorem c9_counterexample :
    cfgC9.return_timestamps = true ∧
    cfgC9.no_timestamps_token_id = some 50363 ∧
    (retrieve_init_token cfgC9 1).1 = .ok [[50363]] := ⟨rfl, rfl, rfl⟩

/-- Claim C10 (code evaluation at the failing input): with two waveforms,
the second element appended to the decoder-input batch is the prompt
wrapped in an extra singleton dimension (the loop reassigns `prompt_ids`
to its unsqueezed tensor), not the rank-1 prompt. -/
theorem c10_code_eval :
    decoder_input_ids [1, 2] 2 = [Tens.vec [1, 2], Tens.wrap (Tens.vec [1, 2])] ∧
    Tens.wrap (Tens.vec [1, 2]) ≠ Tens.vec [1, 2] := ⟨rfl, by decide⟩

/-! ## Helper lemmas -/

/-- An element of a successful `mapME` result comes from applying `f` to an
element of the input list. -/
theorem mapME_ok_mem {α β : Type} (f : α → Except Err β) :
    ∀ (l : List α) (out : List β), mapME f l = .ok out →
      ∀ y ∈ out, ∃ x ∈ l, f x = .ok y := by
  intro l
  induction l with
  | nil =>
    intro out h y hy
    unfold mapME at h
    injection h with h
    subst h
    simp at hy
  | cons x xs ih =>
    intro out h y hy
    unfold mapME at h
    cases hfx : f x with
    | error e => rw [hfx] at h; exact Except.noConfusion h
    | ok z =>
      rw [hfx] at h
      cases hrest : mapME f xs with
      | error e => rw [hrest] at h; exact Except.noConfusion h
      | ok zs =>
        rw [hrest] at h
        injection h with h
        subst h
        rcases List.mem_cons.mp hy with hyz | hyzs
        · exact ⟨x, List.mem_cons_self x xs, by rw [hfx, hyz]⟩
        · obtain ⟨a, ha, hfa⟩ := ih zs hrest y hyzs
          exact ⟨a, List.mem_cons_of_mem x ha, hfa⟩

/-- A `mapME` failure is a failure of `f` on some element of the input. -/
theorem mapME_error_mem {α β : Type} (f : α → Except Err β) :
    ∀ (l : List α) (e : Err), mapME f l = .error e → ∃ x ∈ l, f x = .error e := by
  intro l
  induction l with
  | nil => intro e h; exact Except.noConfusion h
  | cons x xs ih =>
    intro e h
    unfold mapME at h
    cases hfx : f x with
    | error e2 =>
      rw [hfx] at h
      injection h with h
      exact ⟨x, List.mem_cons_self x xs, by rw [hfx, h]⟩
    | ok z =>
      rw [hfx] at h
      cases hrest : mapME f xs with
      | error e2 =>
        rw [hrest] at h
        injection h with h
        obtain ⟨a, ha, hfa⟩ := ih e2 hrest
        exact ⟨a, List.mem_cons_of_mem x ha, by rw [hfa, h]⟩
      | ok zs => rw [hrest] at h; exact Except.noConfusion h

/-- Every row of a successful tile comes from the pre-tile row block. -/
theorem tileRows_ok_mem {rs out : List (List Int)} {b : Nat}
    (h : tileRows rs b = .ok out) : ∀ r ∈ out, r ∈ rs := by
  intro r hr
  unfold tileRows at h
  split at h
  · injection h with h
    subst h
    exact hr
  · split at h
    · injection h with h
      subst h
      rw [List.mem_flatten] at hr
      obtain ⟨l, hl, hrl⟩ := hr
      rw [List.eq_of_mem_replicate hl] at hrl
      exact hrl
    · exact Except.noConfusion h

/-- Prepending keeps a known last element. -/
theorem getLast?_cons_keep {α : Type} {a v : α} {l : List α}
    (h : l.getLast? = some v) : (a :: l).getLast? = some v := by
  cases l with
  | nil => simp at h
  | cons b bs => rw [List.getLast?_cons_cons]; exact h

/-- Sanitizing after appending `some v` leaves `v` last. -/
theorem sanitize_concat_last (l : List (Option Int)) (v : Int) :
    ((l ++ [some v]).filterMap id).getLast? = some v := by
  rw [List.filterMap_append]
  simp

/-- Sanitizing keeps a non-null last element last. -/
theorem sanitize_last_some (l : List (Option Int)) (v : Int)
    (h : l.getLast? = some (some v)) : (l.filterMap id).getLast? = some v := by
  induction l with
  | nil => simp at h
  | cons x xs ih =>
    cases xs with
    | nil =>
      simp at h
      subst h
      simp
    | cons y ys =>
      rw [List.getLast?_cons_cons] at h
      have hrec := ih h
      cases x with
      | none =>
        have h2 : List.filterMap id (none :: y :: ys) = List.filterMap id (y :: ys) := rfl
        rw [h2]
        exact hrec
      | some a =>
        have h2 : List.filterMap id (some a :: y :: ys) = a :: List.filterMap id (y :: ys) := rfl
        rw [h2]
        exact getLast?_cons_keep hrec

/-- With timestamps off and a no-timestamps token defined, a successfully
processed row ends with that token. -/
theorem taskTsRow_false_last {cfg : GenerationConfig} {row : List (Option Int)}
    {out : List Int} {v : Int} (hts : cfg.return_timestamps = false)
    (hv : cfg.no_timestamps_token_id = some v)
    (h : taskTsRow cfg row = .ok out) : out.getLast? = some v := by
  unfold taskTsRow at h
  split at h
  · exact Except.noConfusion h
  · unfold tsAdjust at h
    rw [hts, hv] at h
    rw [if_pos rfl] at h
    dsimp only [] at h
    by_cases hlast : row.getLast? = some (some v)
    · rw [if_neg (not_not_intro hlast)] at h
      dsimp only [] at h
      injection h with h
      subst h
      exact sanitize_last_some row v hlast
    · rw [if_pos hlast] at h
      dsimp only [] at h
      injection h with h
      subst h
      exact sanitize_concat_last row v

/-- With timestamps on, a no-timestamps token defined and a start token
different from it, a successfully processed two-element row
`[start, lang]` does not end with the no-timestamps token. -/
theorem taskTsRow_true_pair {cfg : GenerationConfig} {out : List Int} {s lid v : Int}
    (hts : cfg.return_timestamps = true) (hv : cfg.no_timestamps_token_id = some v)
    (hs : s ≠ v) (h : taskTsRow cfg [some s, some lid] = .ok out) :
    out.getLast? ≠ some v := by
  unfold taskTsRow at h
  split at h
  · exact Except.noConfusion h
  · unfold tsAdjust at h
    rw [hts, hv] at h
    rw [if_neg (by simp)] at h
    dsimp only [] at h
    have hlast2 : ([some s, some lid] : List (Option Int)).getLast? = some (some lid) := rfl
    by_cases hl : lid = v
    · rw [if_pos (by rw [hlast2, hl])] at h
      dsimp only [] at h
      injection h with h
      subst h
      intro hc
      have h3 : ((([some s, some lid] : List (Option Int)).dropLast).filterMap id).getLast? =
          some s := rfl
      rw [h3] at hc
      injection hc with hc
      exact hs hc
    · rw [if_neg (by
        rw [hlast2]
        intro hc
        injection hc with hc
        injection hc with hc
        exact hl hc)] at h
      dsimp only [] at h
      injection h with h
      subst h
      intro hc
      have h3 : ((([some s, some lid] : List (Option Int))).filterMap id).getLast? =
          some lid := rfl
      rw [h3] at hc
      injection hc with hc
      exact hl hc

/-- `resolveLanguages` fails only with `invalidArgument`. -/
theorem resolveLanguages_error {lang : Option LangSpec} {b : Nat} {e : Err}
    (h : resolveLanguages lang b = .error e) : e = .invalidArgument := by
  unfold resolveLanguages at h
  split at h
  · split at h
    · injection h with h; exact h.symm
    · split at h
      · injection h with h; exact h.symm
      · exact Except.noConfusion h
  · exact Except.noConfusion h
  · exact Except.noConfusion h

/-- `language_to_id` never fails with `malformedForcedIds`. -/
theorem language_to_id_ne_mal {cfg : GenerationConfig} {s : String} {e : Err}
    (h : language_to_id cfg s = .error e) : e ≠ .malformedForcedIds := by
  unfold language_to_id at h
  dsimp only [] at h
  split at h
  · injection h with h; subst h; decide
  · split at h
    · rename_i e2 heq2
      injection h with h
      subst h
      split at heq2
      · exact Except.noConfusion heq2
      · split at heq2
        · exact Except.noConfusion heq2
        · split at heq2
          · exact Except.noConfusion heq2
          · injection heq2 with heq2
            subst heq2
            intro hc
            exact Err.noConfusion hc
    · split at h
      · exact Except.noConfusion h
      · injection h with h
        subst h
        intro hc
        exact Err.noConfusion hc

/-- `resolveLangIds` never fails with `malformedForcedIds`. -/
theorem resolveLangIds_ne_mal {cfg : GenerationConfig} {languages : List (Option String)}
    {b : Nat} {u : Bool} {e : Err}
    (h : resolveLangIds cfg languages b u = .error e) : e ≠ .malformedForcedIds := by
  unfold resolveLangIds at h
  split at h
  · split at h
    · rename_i e2 heq2
      injection h with h
      subst h
      obtain ⟨x, _, hfx⟩ := mapME_error_mem _ languages e2 heq2
      exact language_to_id_ne_mal hfx
    · exact Except.noConfusion h
  · split at h
    · split at h
      · rename_i e2 heq2
        injection h with h
        subst h
        exact language_to_id_ne_mal heq2
      · exact Except.noConfusion h
    · exact Except.noConfusion h

/-- `insertLangIds` fails only with `nameError`. -/
theorem insertLangIds_error {rows : List (List (Option Int))}
    {langIds : Option (List Int)} {e : Err}
    (h : insertLangIds rows langIds = .error e) : e = .nameError := by
  unfold insertLangIds at h
  split at h
  · exact Except.noConfusion h
  · split at h
    · exact Except.noConfusion h
    · injection h with h; exact h.symm

/-- `tsAdjust` fails only with `attributeError`. -/
theorem tsAdjust_error {cfg : GenerationConfig} {row : List (Option Int)} {e : Err}
    (h : tsAdjust cfg row = .error e) : e = .attributeError := by
  unfold tsAdjust at h
  split at h
  · split at h
    · split at h
      · exact Except.noConfusion h
      · exact Except.noConfusion h
    · exact Except.noConfusion h
  · split at h
    · injection h with h; exact h.symm
    · split at h
      · exact Except.noConfusion h
      · exact Except.noConfusion h

/-- `taskTsRow` fails only with `attributeError`. -/
theorem taskTsRow_error {cfg : GenerationConfig} {row : List (Option Int)} {e : Err}
    (h : taskTsRow cfg row = .error e) : e = .attributeError := by
  unfold taskTsRow at h
  split at h
  · injection h with h; exact h.symm
  · split at h
    · rename_i e2 heq2
      injection h with h
      subst h
      exact tsAdjust_error heq2
    · exact Except.noConfusion h

/-- `tileRows` fails only with `inconsistentLength`. -/
theorem tileRows_error {rows : List (List Int)} {b : Nat} {e : Err}
    (h : tileRows rows b = .error e) : e = .inconsistentLength := by
  unfold tileRows at h
  split at h
  · exact Except.noConfusion h
  · split at h
    · exact Except.noConfusion h
    · injection h with h; exact h.symm

/-- The post-clear body of the builder never fails with
`malformedForcedIds`: that error belongs to the forced-directive step
alone. -/
theorem retrieveCore_ne_mal {cfg : GenerationConfig} {init0 : List (Option Int)}
    {b : Nat} : retrieveCore cfg init0 b ≠ .error .malformedForcedIds := by
  intro h
  unfold retrieveCore at h
  split at h
  · rename_i e heq
    injection h with h
    subst h
    exact absurd (resolveLanguages_error heq) (by decide)
  · split at h
    · rename_i e heq
      injection h with h
      subst h
      exact absurd rfl (resolveLangIds_ne_mal heq)
    · split at h
      · rename_i e heq
        injection h with h
        subst h
        exact absurd (insertLangIds_error heq) (by decide)
      · split at h
        · rename_i e heq
          injection h with h
          subst h
          exact absurd (taskTsRow_error (mapME_error_mem _ _ _ heq).choose_spec.2) (by decide)
        · exact absurd (tileRows_error h) (by decide)

/-- A failing forced-directive step raises only `malformedForcedIds` or
`indexError`. -/
theorem seed_error_cases {s : Int} {f : Option (List (Nat × Option Int))} {e : Err}
    (h : seedInitTokens s f = .error e) :
    e = .malformedForcedIds ∨ e = .indexError := by
  unfold seedInitTokens at h
  split at h
  · exact Except.noConfusion h
  · injection h with h; exact Or.inr h.symm
  · dsimp only [] at h
    split at h
    · split at h
      · exact Except.noConfusion h
      · injection h with h; exact Or.inl h.symm
    · exact Except.noConfusion h

/-- When every pre-insertion row is the same seed `init0`, every row of a
successful insertion is `insertOne init0 lid` for some language id. -/
theorem insertLangIds_const_shape {init0 : List (Option Int)}
    {languages : List (Option String)} {langIds : Option (List Int)}
    {rows2 : List (List (Option Int))}
    (h : insertLangIds (languages.map (fun _ => init0)) langIds = .ok rows2) :
    ∀ r2 ∈ rows2, ∃ lid : Int, r2 = insertOne init0 lid := by
  intro r2 hr2
  unfold insertLangIds at h
  split at h
  · rename_i ids
    injection h with h
    subst h
    rw [List.mem_map] at hr2
    obtain ⟨p, hp, hpe⟩ := hr2
    obtain ⟨p1, p2⟩ := p
    obtain ⟨h1, _⟩ := List.of_mem_zip hp
    rw [List.mem_map] at h1
    obtain ⟨a, _, ha⟩ := h1
    refine ⟨p2, ?_⟩
    rw [← hpe]
    dsimp only [] at ha ⊢
    rw [← ha]
  · split at h
    · injection h with h
      subst h
      simp at hr2
    · exact Except.noConfusion h

/-! ## Amended claim theorems -/

/-- Claim C4 (amended): the build fails with `MalformedForcedIds` exactly in
the case the code checks: language null, a forced directive whose FIRST
position is 1, and entries remaining after consuming the maximal contiguous
run; the config then keeps its prior `forced_decoder_ids` (the raise
precedes the clearing).  A directive whose first position is not 1 is
silently ignored instead (see the counterexample). -/
theorem c4_amended (cfg : GenerationConfig) (batch : Nat) (t : Option Int)
    (fd : List (Nat × Option Int))
    (hfd : cfg.forced_decoder_ids = some ((1, t) :: fd))
    (hlang : cfg.language = none)
    (hgap : (consumeForced ((1, t) :: fd) 1).2 ≠ []) :
    retrieve_init_token cfg batch = (.error .malformedForcedIds, cfg) := by
  unfold retrieve_init_token
  rw [hfd, hlang]
  simp [seedInitTokens, hgap]

/-- Claim C4 witness: the directive `[(1, 7), (3, 8)]` (gap after
position 1) fails with `MalformedForcedIds`. -/
theorem c4_amended_witness :
    retrieve_init_token cfgC4w 1 = (.error .malformedForcedIds, cfgC4w) :=
  c4_amended cfgC4w 1 (some 7) [(3, some 8)] rfl rfl (by decide)

/-- Claim C7 (amended): a language list with a null entry or of the wrong
length fails with `InvalidArgument`, but the config's `forced_decoder_ids`
is null after the failed call (line 129 clears it before the list
validation of lines 132-141), not its prior value. -/
theorem c7_amended (cfg : GenerationConfig) (batch : Nat) (ls : List (Option String))
    (hlang : cfg.language = some (.many ls))
    (hbad : ls.any (fun l => l.isNone) = true ∨ ls.length ≠ batch) :
    (retrieve_init_token cfg batch).1 = .error .invalidArgument ∧
    (retrieve_init_token cfg batch).2.forced_decoder_ids = none := by
  have hfe : (if cfg.forced_decoder_ids.isSome && cfg.language.isSome then none
      else cfg.forced_decoder_ids) = (none : Option (List (Nat × Option Int))) := by
    cases hf : cfg.forced_decoder_ids with
    | none => simp
    | some l => simp [hlang]
  have hres : resolveLanguages cfg.language batch = .error .invalidArgument := by
    rw [hlang]
    unfold resolveLanguages
    dsimp only []
    rcases hbad with h | h
    · rw [if_pos h]
    · by_cases h2 : ls.any (fun l => l.isNone) = true
      · rw [if_pos h2]
      · rw [if_neg h2, if_pos h]
  have hR : retrieve_init_token cfg batch =
      (retrieveCore { cfg with forced_decoder_ids := none }
        [some cfg.decoder_start_token_id] batch,
       { cfg with forced_decoder_ids := none }) := by
    unfold retrieve_init_token
    rw [hfe]
    rfl
  rw [hR]
  refine ⟨?_, rfl⟩
  show retrieveCore { cfg with forced_decoder_ids := none } _ batch = _
  unfold retrieveCore
  have hlangproj : ({ cfg with forced_decoder_ids := none } : GenerationConfig).language =
      cfg.language := rfl
  rw [hlangproj, hres]

/-- Claim C7 witness: a language list containing a null entry fails with
`InvalidArgument` and leaves `forced_decoder_ids` null. -/
theorem c7_amended_witness :
    (retrieve_init_token cfgC7w 1).1 = .error .invalidArgument ∧
    (retrieve_init_token cfgC7w 1).2.forced_decoder_ids = none :=
  c7_amended cfgC7w 1 [some "en", none] rfl (Or.inl (by decide))

/-- Claim C8 (amended): `forced_decoder_ids` is null after every call whose
result is not the forced-directive step's own failure (`MalformedForcedIds`,
or `IndexError` on an empty directive list); when the step does fail with
`MalformedForcedIds`, the config is returned untouched, retaining its prior
`forced_decoder_ids`. -/
theorem c8_amended (cfg : GenerationConfig) (batch : Nat) :
    ((retrieve_init_token cfg batch).1 ≠ .error .malformedForcedIds →
     (retrieve_init_token cfg batch).1 ≠ .error .indexError →
     (retrieve_init_token cfg batch).2.forced_decoder_ids = none) ∧
    ((retrieve_init_token cfg batch).1 = .error .malformedForcedIds →
     (retrieve_init_token cfg batch).2 = cfg) := by
  cases hs : seedInitTokens cfg.decoder_start_token_id
      (if cfg.forced_decoder_ids.isSome && cfg.language.isSome then none
       else cfg.forced_decoder_ids) with
  | error e =>
    have hR : retrieve_init_token cfg batch = (.error e, cfg) := by
      unfold retrieve_init_token
      rw [hs]
    rw [hR]
    constructor
    · intro h1 h2
      exfalso
      rcases seed_error_cases hs with he | he <;> subst he
      · exact h1 rfl
      · exact h2 rfl
    · intro _
      rfl
  | ok init0 =>
    have hR : retrieve_init_token cfg batch =
        (retrieveCore { cfg with forced_decoder_ids := none } init0 batch,
         { cfg with forced_decoder_ids := none }) := by
      unfold retrieve_init_token
      rw [hs]
    rw [hR]
    constructor
    · intro _ _
      rfl
    · intro h1
      exact absurd h1 retrieveCore_ne_mal

/-- Claim C8 witness: a call whose forced directive is discarded by the
language conflict succeeds and leaves `forced_decoder_ids` null. -/
theorem c8_amended_witness :
    (retrieve_init_token cfgC8w 1).2.forced_decoder_ids = none :=
  (c8_amended cfgC8w 1).1 (by decide) (by decide)

/-- Claim C9 (amended): over every successful build, (a) with
`return_timestamps` false and a no-timestamps token defined, every returned
prompt ends with that token; (b) with `return_timestamps` true, no returned
prompt ends with that token PROVIDED the decoder start token differs from
it and no forced directive seeds the prompt (`forced_decoder_ids` null at
call time) — without those provisos the removal of a single trailing token
can leave another no-timestamps token last (see the counterexample). -/
theorem c9_amended (cfg : GenerationConfig) (batch : Nat) (rows : List (List Int))
    (cfgAfter : GenerationConfig)
    (hok : retrieve_init_token cfg batch = (.ok rows, cfgAfter)) :
    (∀ v : Int, cfg.return_timestamps = false → cfg.no_timestamps_token_id = some v →
      ∀ r ∈ rows, r.getLast? = some v) ∧
    (∀ v : Int, cfg.return_timestamps = true → cfg.forced_decoder_ids = none →
      cfg.no_timestamps_token_id = some v → cfg.decoder_start_token_id ≠ v →
      ∀ r ∈ rows, r.getLast? ≠ some v) := by
  cases hs : seedInitTokens cfg.decoder_start_token_id
      (if cfg.forced_decoder_ids.isSome && cfg.language.isSome then none
       else cfg.forced_decoder_ids) with
  | error e =>
    rw [show retrieve_init_token cfg batch = (.error e, cfg) by
      unfold retrieve_init_token; rw [hs]] at hok
    injection hok with h1 h2
    exact Except.noConfusion h1
  | ok init0 =>
    rw [show retrieve_init_token cfg batch =
        (retrieveCore { cfg with forced_decoder_ids := none } init0 batch,
         { cfg with forced_decoder_ids := none }) by
      unfold retrieve_init_token; rw [hs]] at hok
    injection hok with h1 h2
    unfold retrieveCore at h1
    split at h1
    · exact Except.noConfusion h1
    · rename_i languages heqL
      split at h1
      · exact Except.noConfusion h1
      · rename_i langIds heqI
        split at h1
        · exact Except.noConfusion h1
        · rename_i rows2 heqR
          split at h1
          · exact Except.noConfusion h1
          · rename_i rows3 heqM
            constructor
            · intro v hts hv r hr
              obtain ⟨r2, _, hrow⟩ :=
                mapME_ok_mem _ rows2 rows3 heqM r (tileRows_ok_mem h1 r hr)
              exact taskTsRow_false_last hts hv hrow
            · intro v hts hforced hv hstart r hr
              have hinit : init0 = [some cfg.decoder_start_token_id] := by
                rw [hforced] at hs
                simp [seedInitTokens] at hs
                exact hs.symm
              subst hinit
              obtain ⟨r2, hr2mem, hrow⟩ :=
                mapME_ok_mem _ rows2 rows3 heqM r (tileRows_ok_mem h1 r hr)
              obtain ⟨lid, hlid⟩ := insertLangIds_const_shape heqR r2 hr2mem
              rw [hlid] at hrow
              have hio : insertOne [some cfg.decoder_start_token_id] lid =
                  [some cfg.decoder_start_token_id, some lid] := rfl
              rw [hio] at hrow
              exact taskTsRow_true_pair hts hv hstart hrow

/-- Claim C9 witness: with `return_timestamps` false and no-timestamps
token 50363 defined, the returned prompt ends with 50363. -/
theorem c9_amended_witness :
    ([50258, 50259, 50363] : List Int).getLast? = some 50363 :=
  (c9_amended cfgC9w 1 [[50258, 50259, 50363]] cfgC9w rfl).1 50363 rfl rfl
    [50258, 50259, 50363] (by simp)
